import Mathlib

/-!
Verification of the ref-namespace mapping algebra and remote-helper protocol
of git-remote-subdir.py, via a shallow embedding.

Python strings are modelled as lists of characters (`Str`); fallible Python
code (raised exceptions) is modelled with `Except PyErr`; the various Python
exception sites are distinguished by `PyErr` constructors.  Output written to
a file object is modelled as the list of strings passed to `write`.
-/

/-- Python strings, modelled as lists of characters. -/
abbrev Str := List Char

/-- Convert a Lean string literal to the `Str` model. -/
def chars (s : String) : Str := s.toList

/-- Python errors raised by the program, one constructor per raise site kind.
`attributeError` models calling a method on `None`; `unpackValueError` models
unpacking `split(':')` into two variables when the part count differs from 2;
`notImplementedError` is the `UnsupportedDirSpec` signal; `unexpectedFetchCall`
is the `RuntimeError` in `do_fetch`; `indexError` models `args[0]` on an empty
list; `unknownCommand` models the `getattr` failure for an unknown command;
`typeError` models calling a handler with the wrong number of arguments. -/
inductive PyErr
  | attributeError
  | unpackValueError
  | invalidRefSpec
  | invalidDirSpec
  | missingConfiguration
  | nestedSubdirRemote
  | refspecNamespaceMismatch
  | notImplementedError
  | unexpectedFetchCall
  | indexError
  | unknownCommand
  | typeError
  deriving DecidableEq

/-- Python `s.startswith(p)`. -/
def startswith : Str → Str → Bool
  | _, [] => true
  | [], _ :: _ => false
  | c :: s, p :: ps => c == p && startswith s ps

/-- Python `s.endswith(p)`. -/
def endswith (s p : Str) : Bool := startswith s.reverse p.reverse

theorem startswith_append (p t : Str) : startswith (p ++ t) p = true := by
  induction p with
  | nil => cases t <;> rfl
  | cons c cs ih => simp [startswith, ih]

theorem startswith_iff {s p : Str} :
    startswith s p = true ↔ p ++ s.drop p.length = s := by
  induction p generalizing s with
  | nil => cases s <;> simp [startswith]
  | cons c cs ih =>
    cases s with
    | nil => simp [startswith]
    | cons d t =>
      simp only [startswith, Bool.and_eq_true, beq_iff_eq, List.drop_succ_cons,
        List.cons_append, List.length_cons, List.cons.injEq]
      constructor
      · rintro ⟨rfl, h⟩; exact ⟨rfl, ih.mp h⟩
      · rintro ⟨rfl, h⟩; exact ⟨rfl, ih.mpr h⟩

theorem endswith_single {s : Str} {c : Char} (h : endswith s [c] = true) :
    s.dropLast ++ [c] = s := by
  unfold endswith at h
  match hs : s.reverse with
  | [] => rw [hs] at h; simp [startswith] at h
  | d :: t =>
    rw [hs] at h
    simp only [List.reverse_cons, startswith, Bool.and_eq_true, beq_iff_eq] at h
    have hsrec : s = t.reverse ++ [d] := by
      have := congrArg List.reverse hs
      simpa using this
    rw [hsrec, h.1]
    simp

/-- Python `parts = s.split(':'); l, r = parts` — succeeds with the two parts
exactly when `s` contains exactly one colon, and fails (ValueError) otherwise. -/
def splitColon : Str → Option (Str × Str)
  | [] => none
  | c :: cs =>
    if c = ':' then
      if ':' ∈ cs then none else some ([], cs)
    else
      (splitColon cs).map (fun p => (c :: p.1, p.2))

theorem splitColon_eq {s l r : Str} (h : splitColon s = some (l, r)) :
    s = l ++ ':' :: r := by
  induction s generalizing l r with
  | nil => simp [splitColon] at h
  | cons c cs ih =>
    unfold splitColon at h
    split at h
    · next hc =>
      split at h
      · simp at h
      · simp only [Option.some.injEq, Prod.mk.injEq] at h
        obtain ⟨rfl, rfl⟩ := h
        simp [hc]
    · next hc =>
      cases hsc : splitColon cs with
      | none => rw [hsc] at h; simp at h
      | some p =>
        obtain ⟨p1, p2⟩ := p
        rw [hsc] at h
        have h' : (c :: p1, p2) = (l, r) := Option.some.inj h
        have h1 : c :: p1 = l := congrArg Prod.fst h'
        have h2 : p2 = r := congrArg Prod.snd h'
        subst h1
        subst h2
        have hcs := ih hsc
        simp [hcs]

/-- The RefSpec data model: the glob pair `left_pfx*` ↔ `right_pfx*` plus a
force flag.  The fields model the source's left_prefix / right_prefix. -/
structure RefSpec where
  left_pfx : Str
  right_pfx : Str
  force : Bool
  deriving DecidableEq

namespace RefSpec

/-- RefSpec.parse: optional leading '+' (the force flag, which is stripped
before the remaining text is split), exactly one ':' separating two terms that
each end in '*'; strips the trailing '*' from each term. -/
def parse (s0 : Str) : Except PyErr RefSpec :=
  match splitColon (if startswith s0 ['+'] then s0.drop 1 else s0) with
  | none => .error .unpackValueError
  | some (l, r) =>
    if endswith l ['*'] && endswith r ['*'] then
      .ok ⟨l.dropLast, r.dropLast, startswith s0 ['+']⟩
    else .error .invalidRefSpec

/-- RefSpec serialization, modelling Python str(): the force marker, then
left, a star, the colon, right, a star. -/
def str (r : RefSpec) : Str :=
  (if r.force then ['+'] else []) ++ r.left_pfx ++ ['*'] ++ [':']
    ++ r.right_pfx ++ ['*']

/-- RefSpec.ltr: map a ref from the left to the right side; None iff no match. -/
def ltr (r : RefSpec) (left_ref : Str) : Option Str :=
  if startswith left_ref r.left_pfx then
    some (r.right_pfx ++ left_ref.drop r.left_pfx.length)
  else none

/-- RefSpec.rtl: map a ref from the right to the left side; None iff no match. -/
def rtl (r : RefSpec) (right_ref : Str) : Option Str :=
  if startswith right_ref r.right_pfx then
    some (r.left_pfx ++ right_ref.drop r.right_pfx.length)
  else none

/-- RefSpec.with_left: new RefSpec with the given left side; the optional
force argument defaults to the receiver's flag. -/
def with_left (r : RefSpec) (l : Str) (force : Option Bool) : RefSpec :=
  ⟨l, r.right_pfx, force.getD r.force⟩

/-- RefSpec.with_right: new RefSpec with the given right side; the optional
force argument defaults to the receiver's flag. -/
def with_right (r : RefSpec) (rp : Str) (force : Option Bool) : RefSpec :=
  ⟨r.left_pfx, rp, force.getD r.force⟩

end RefSpec

/-- C5: for every RefSpec R and ref x, if mapping left-to-right yields y (not
the no-match sentinel None) then mapping y right-to-left returns exactly x. -/
theorem ltr_rtl_inverse (R : RefSpec) (x y : Str) (h : R.ltr x = some y) :
    R.rtl y = some x := by
  unfold RefSpec.ltr at h
  split at h
  · next hsw =>
    simp only [Option.some.injEq] at h
    subst h
    unfold RefSpec.rtl
    rw [startswith_append]
    simp only [if_pos]
    congr 1
    rw [List.drop_left]
    exact startswith_iff.mp hsw
  · exact absurd h (by simp)

/-- C5 witness: the inverse law applied at a concrete refspec and ref. -/
theorem ltr_rtl_inverse_witness :
    RefSpec.rtl ⟨chars "refs/heads/", chars "refs/remotes/origin/", true⟩
      (chars "refs/remotes/origin/main") = some (chars "refs/heads/main") :=
  ltr_rtl_inverse ⟨chars "refs/heads/", chars "refs/remotes/origin/", true⟩
    (chars "refs/heads/main") (chars "refs/remotes/origin/main") (by decide)

theorem dropLast_append_single (t : Str) (c : Char) :
    (t ++ [c]).dropLast = t := by
  induction t with
  | nil => rfl
  | cons d ds ih => simp [List.dropLast, ih]

/-- Equality of Except values over decidable types is decidable. -/
instance {ε α : Type} [DecidableEq ε] [DecidableEq α] :
    DecidableEq (Except ε α) := fun a b =>
  match a, b with
  | .error e, .error f =>
    if h : e = f then .isTrue (by rw [h]) else .isFalse (by simp [h])
  | .ok x, .ok y =>
    if h : x = y then .isTrue (by rw [h]) else .isFalse (by simp [h])
  | .error _, .ok _ => .isFalse (fun h => Except.noConfusion h)
  | .ok _, .error _ => .isFalse (fun h => Except.noConfusion h)

/-- C6: serializing a successfully parsed refspec returns the original text. -/
theorem parse_str_roundtrip (s : Str) (R : RefSpec)
    (h : RefSpec.parse s = .ok R) : R.str = s := by
  unfold RefSpec.parse at h
  split at h
  · exact absurd h (by simp)
  · rename_i l r hsc
    split at h
    · rename_i hstar
      simp only [Except.ok.injEq] at h
      subst h
      obtain ⟨hl, hr⟩ := Bool.and_eq_true _ _ |>.mp hstar
      obtain ⟨lt, rfl⟩ : ∃ t, l = t ++ ['*'] := ⟨l.dropLast, (endswith_single hl).symm⟩
      obtain ⟨rt, rfl⟩ : ∃ t, r = t ++ ['*'] := ⟨r.dropLast, (endswith_single hr).symm⟩
      unfold RefSpec.str
      simp only [dropLast_append_single]
      by_cases hplus : startswith s ['+'] = true
      · rw [if_pos hplus] at hsc
        have hbody := splitColon_eq hsc
        have hs : ['+'] ++ s.drop 1 = s := by
          simpa using startswith_iff.mp hplus
        rw [if_pos hplus, ← hs, hbody]
        simp
      · rw [if_neg hplus] at hsc
        have hbody := splitColon_eq hsc
        rw [if_neg hplus, hbody]
        simp
    · exact absurd h (by simp)

/-- C6 witness: round-trip at a concrete refspec text. -/
theorem parse_str_roundtrip_witness :
    RefSpec.str ⟨chars "refs/heads/", chars "refs/remotes/origin/", true⟩
      = chars "+refs/heads/*:refs/remotes/origin/*" :=
  parse_str_roundtrip (chars "+refs/heads/*:refs/remotes/origin/*")
    ⟨chars "refs/heads/", chars "refs/remotes/origin/", true⟩ (by decide)

/-- RemoteSubdirHelper.split_refspec, with the orchestrator's mapped ref
namespace (remove) and unmapped ref namespace (ins) passed explicitly: checks
that the right side lives under the mapped namespace, then transplants the
suffix onto the unmapped namespace, returning the (fetchspec, mapspec) pair. -/
def split_refspec (remove ins : Str) (refspec : RefSpec) :
    Except PyErr (RefSpec × RefSpec) :=
  if startswith refspec.right_pfx remove then
    .ok (refspec.with_right (ins ++ refspec.right_pfx.drop remove.length) (some true),
         refspec.with_left (ins ++ refspec.right_pfx.drop remove.length) none)
  else .error .refspecNamespaceMismatch

theorem startswith_append_assoc (p a b : Str) :
    startswith (p ++ (a ++ b)) (p ++ a) = true := by
  rw [← List.append_assoc]; exact startswith_append _ _

theorem drop_append_assoc (p a b : Str) :
    (p ++ (a ++ b)).drop (p ++ a).length = b := by
  rw [← List.append_assoc]; exact List.drop_left _ _

/-- C4 (amended): for a RefSpec whose split succeeds and a ref x in its left
domain, composing the fetchspec's left-to-right mapping with the mapspec's
LEFT-to-right mapping reproduces the original left-to-right mapping. -/
theorem split_composition (R fs ms : RefSpec) (remove ins x : Str)
    (hsplit : split_refspec remove ins R = .ok (fs, ms))
    (hx : startswith x R.left_pfx = true) :
    (RefSpec.ltr fs x).bind (RefSpec.ltr ms) = RefSpec.ltr R x := by
  unfold split_refspec at hsplit
  split at hsplit
  · have h' := Except.ok.inj hsplit
    have hfs : fs = R.with_right (ins ++ R.right_pfx.drop remove.length) (some true) :=
      (congrArg Prod.fst h').symm
    have hms : ms = R.with_left (ins ++ R.right_pfx.drop remove.length) none :=
      (congrArg Prod.snd h').symm
    subst hfs
    subst hms
    simp [RefSpec.with_right, RefSpec.with_left, RefSpec.ltr, Option.getD,
      hx, startswith_append, List.drop_left, startswith_append_assoc,
      drop_append_assoc]
  · exact absurd hsplit (by simp)

/-- C4 witness: the amended composition law at the concrete configured
refspec of the origin scenario. -/
theorem split_composition_witness :
    (RefSpec.ltr ⟨chars "refs/heads/", chars "refs/remote-subdir/origin/", true⟩
        (chars "refs/heads/main")).bind
      (RefSpec.ltr ⟨chars "refs/remote-subdir/origin/", chars "refs/remotes/origin/", true⟩)
    = RefSpec.ltr ⟨chars "refs/heads/", chars "refs/remotes/origin/", true⟩
        (chars "refs/heads/main") :=
  split_composition ⟨chars "refs/heads/", chars "refs/remotes/origin/", true⟩
    ⟨chars "refs/heads/", chars "refs/remote-subdir/origin/", true⟩
    ⟨chars "refs/remote-subdir/origin/", chars "refs/remotes/origin/", true⟩
    (chars "refs/remotes/origin/") (chars "refs/remote-subdir/origin/")
    (chars "refs/heads/main") (by decide) (by decide)

/-- C4 counterexample: with the claim's mapRightToLeft in the outer position,
the composition yields the no-match sentinel None instead of R's mapping, at
the concrete configured refspec of the origin scenario; so the claim as
stated is false. -/
theorem split_composition_rtl_cex :
    split_refspec (chars "refs/remotes/origin/") (chars "refs/remote-subdir/origin/")
        ⟨chars "refs/heads/", chars "refs/remotes/origin/", true⟩
      = .ok (⟨chars "refs/heads/", chars "refs/remote-subdir/origin/", true⟩,
             ⟨chars "refs/remote-subdir/origin/", chars "refs/remotes/origin/", true⟩)
    ∧ startswith (chars "refs/remotes/origin/") (chars "refs/remotes/origin/") = true
    ∧ startswith (chars "refs/heads/main") (chars "refs/heads/") = true
    ∧ (RefSpec.ltr ⟨chars "refs/heads/", chars "refs/remote-subdir/origin/", true⟩
          (chars "refs/heads/main")).bind
        (RefSpec.rtl ⟨chars "refs/remote-subdir/origin/", chars "refs/remotes/origin/", true⟩)
      = none
    ∧ RefSpec.ltr ⟨chars "refs/heads/", chars "refs/remotes/origin/", true⟩
        (chars "refs/heads/main") = some (chars "refs/remotes/origin/main")
    ∧ (none : Option Str) ≠ some (chars "refs/remotes/origin/main") := by
  refine ⟨by decide, by decide, by decide, by decide, by decide, by decide⟩

/-- The DirSpec data model: a directory path on each side. -/
structure DirSpec where
  left_dir : Str
  right_dir : Str
  deriving DecidableEq

/-- Python s.rstrip with a slash argument: remove all trailing slashes. -/
def rstripSlash (s : Str) : Str :=
  (s.reverse.dropWhile (fun c => c == '/')).reverse

namespace DirSpec

/-- DirSpec.parse: split on the unique ':' (the two-variable unpack fails as
in RefSpec.parse), reject a leading '/' on either side, strip trailing
slashes. -/
def parse (s : Str) : Except PyErr DirSpec :=
  match splitColon s with
  | none => .error .unpackValueError
  | some (l, r) =>
    if startswith l ['/'] || startswith r ['/'] then .error .invalidDirSpec
    else .ok ⟨rstripSlash l, rstripSlash r⟩

/-- DirSpec serialization: left, colon, right. -/
def str (d : DirSpec) : Str := d.left_dir ++ [':'] ++ d.right_dir

/-- DirSpec.ltr: map a tree through the dirspec.  A non-empty directory on
either side is unimplemented and raised as NotImplementedError (the
UnsupportedDirSpec signal); the empty/empty dirspec is the identity. -/
def ltr (d : DirSpec) (tree_sha1 : Str) : Except PyErr Str :=
  if d.left_dir ≠ [] then .error .notImplementedError
  else if d.right_dir ≠ [] then .error .notImplementedError
  else .ok tree_sha1

end DirSpec

/-- C9: the tree-mapping operation fails with the UnsupportedDirSpec signal
for every input whenever either directory is non-empty, the dirspec text
given as a lone colon parses to the empty/empty DirSpec, and the empty/empty
DirSpec's tree mapping is the identity. -/
theorem dirspec_ltr_stub :
    (∀ (d : DirSpec) (x : Str), d.left_dir ≠ [] ∨ d.right_dir ≠ [] →
      d.ltr x = .error .notImplementedError)
    ∧ DirSpec.parse (chars ":") = .ok ⟨[], []⟩
    ∧ ∀ x : Str, DirSpec.ltr ⟨[], []⟩ x = .ok x := by
  refine ⟨?_, by decide, fun x => rfl⟩
  intro d x h
  unfold DirSpec.ltr
  rcases h with h | h
  · rw [if_pos h]
  · by_cases hl : d.left_dir = []
    · rw [if_neg (not_not_intro hl), if_pos h]
    · rw [if_pos hl]

/-- C9 witness: the stub law at the concrete dirspecs of the spec's
DirSpec-stub property. -/
theorem dirspec_ltr_stub_witness :
    DirSpec.ltr ⟨chars "app", chars "lib"⟩ (chars "sha1")
      = .error .notImplementedError
    ∧ DirSpec.ltr ⟨[], []⟩ (chars "sha1") = .ok (chars "sha1") :=
  ⟨dirspec_ltr_stub.1 ⟨chars "app", chars "lib"⟩ (chars "sha1")
      (Or.inl (by decide)),
   dirspec_ltr_stub.2.2 (chars "sha1")⟩

/-- Configuration of a remote as read from the config store: config_get_one
yields none for an absent key; config_get_all yields the (possibly empty)
list of values of a multi-valued key. -/
structure Config where
  url : Option Str
  dirspec : Option Str
  fetch : List Str
  deriving DecidableEq

/-- The orchestrator state after successful construction. -/
structure RemoteSubdirHelper where
  remote : Str
  url : Str
  dirspec : DirSpec
  refspecs : List RefSpec
  unmapped_ref_pfx : Str
  mapped_ref_pfx : Str
  fetchspecs : List RefSpec
  mapspecs : List RefSpec
  deriving DecidableEq

namespace RemoteSubdirHelper

/-- Python truthiness of the configured url: present and non-empty. -/
def urlTruthy : Option Str → Bool
  | none => false
  | some [] => false
  | some (_ :: _) => true

/-- Constructor of the orchestrator, evaluated in source order: read url;
parse the dirspec config value (calling split on the absent-key None raises
AttributeError); parse every fetch refspec; then the missing-configuration
truthiness check (a parsed DirSpec object is always truthy in Python, so only
url and the refspec list are effectively tested there); then the nested
subdir url check; then split every refspec into its (fetchspec, mapspec)
pair.  The unmapped and mapped namespaces instantiate the class templates
with the remote name. -/
def init (cfg : Config) (remote : Str) : Except PyErr RemoteSubdirHelper := do
  let dsRaw ← match cfg.dirspec with
    | none => Except.error PyErr.attributeError
    | some s => Except.ok s
  let dirspec ← DirSpec.parse dsRaw
  let refspecs ← cfg.fetch.mapM RefSpec.parse
  if urlTruthy cfg.url && !refspecs.isEmpty then
    let url := cfg.url.getD []
    if startswith url (chars "subdir:") then
      Except.error PyErr.nestedSubdirRemote
    else
      let unmapped := chars "refs/remote-subdir/" ++ remote ++ ['/']
      let mapped := chars "refs/remotes/" ++ remote ++ ['/']
      let pairs ← refspecs.mapM (split_refspec mapped unmapped)
      Except.ok ⟨remote, url, dirspec, refspecs, unmapped, mapped,
        pairs.map Prod.fst, pairs.map Prod.snd⟩
  else
    Except.error PyErr.missingConfiguration

/-- The capabilities handler writes the mandatory-fetch capability line and
the blank terminator (the handler reads nothing from self). -/
def do_capabilities : List Str := [chars "*fetch\n", chars "\n"]

/-- The fetch handler unconditionally raises RuntimeError (the
UnexpectedFetchCall signal) and writes nothing. -/
def do_fetch (_sha1 _name : Str) : Except PyErr (List Str) :=
  .error .unexpectedFetchCall

end RemoteSubdirHelper

/-- Modelled from the spec: the Command Runner collaborator (the underlying
version-control binary, out of scope of the source and specified only at its
interface).  A fetch over glob refspecs stores, for each advertised
(value, refname) pair and each refspec whose left side matches the refname,
the value under the refspec's right-side name. -/
def gitFetchStore (advertised : List (Str × Str)) (specs : List RefSpec) :
    List (Str × Str) :=
  (specs.map (fun rs => advertised.filterMap
    (fun p => (rs.ltr p.2).map (fun r => (p.1, r))))).flatten

/-- Modelled from the spec: enumerating refs (git for-each-ref) returns the
stored (value, refname) pairs whose refname lies under the pattern. -/
def gitRefs (store : List (Str × Str)) (pattern : Str) : List (Str × Str) :=
  store.filter (fun p => startswith p.2 pattern)

/-- Python string formatting of an optional string: None formats as 'None'. -/
def pyFmtOpt : Option Str → Str
  | none => chars "None"
  | some s => s

/-- A fallback RefSpec for the fetchspecs-head lookup; a constructed helper
always has a non-empty fetchspecs list (the refspec list was checked
non-empty at construction), so the fallback is unreachable from init. -/
def dummySpec : RefSpec := ⟨[], [], false⟩

/-- The observable effects of the list handler: the git fetch invocation
(url and serialized refspec arguments) and the lines written. -/
structure ListResult where
  fetchUrl : Str
  fetchArgs : List Str
  output : List Str
  deriving DecidableEq

namespace RemoteSubdirHelper

/-- The list handler: eagerly fetch every fetchspec from the configured url,
then for each ref now present under the unmapped namespace write one line
pairing its value with the FIRST fetchspec's right-to-left mapping of its
name, then the blank terminator. -/
def do_list (h : RemoteSubdirHelper) (advertised : List (Str × Str)) :
    ListResult :=
  { fetchUrl := h.url
    fetchArgs := h.fetchspecs.map RefSpec.str
    output :=
      (gitRefs (gitFetchStore advertised h.fetchspecs) h.unmapped_ref_pfx).map
        (fun p => p.1 ++ [' ']
          ++ pyFmtOpt ((h.fetchspecs.headD dummySpec).rtl p.2) ++ ['\n'])
      ++ [chars "\n"] }

end RemoteSubdirHelper

/-- Whitespace in the sense of Python str.split() and str.rstrip() with no
arguments. -/
def pySpace (c : Char) : Bool :=
  c == ' ' || c == '\t' || c == '\n' || c == '\r' || c == '\x0b' || c == '\x0c'

/-- Python s.rstrip(): remove trailing whitespace. -/
def pyRstrip (s : Str) : Str := (s.reverse.dropWhile pySpace).reverse

/-- Helper for pySplit: walk the characters with the current (reversed)
token. -/
def pySplitAux : Str → Str → List Str
  | [], acc => if acc.isEmpty then [] else [acc.reverse]
  | c :: cs, acc =>
    if pySpace c then
      if acc.isEmpty then pySplitAux cs [] else acc.reverse :: pySplitAux cs []
    else pySplitAux cs (c :: acc)

/-- Python s.split() with no separator: split on whitespace runs, producing
no empty tokens. -/
def pySplit (s : Str) : List Str := pySplitAux s []

/-- The observable outcome of a protocol session: lines written, handlers
dispatched, git fetch invocations performed, and the uncaught error that
aborted the session, if any. -/
structure SessionResult where
  output : List Str
  dispatched : List Str
  fetchCalls : List (Str × List Str)
  err : Option PyErr
  deriving DecidableEq

/-- Whether the command name resolves to a handler (getattr succeeds). -/
def knownCommand (cmd : Str) : Bool :=
  cmd == chars "capabilities" || cmd == chars "list" || cmd == chars "fetch"

namespace RemoteSubdirHelper

/-- Resolve and invoke one command: getattr for an unknown name raises (the
UnknownCommand signal); a handler invoked with the wrong number of extra
arguments raises TypeError before its body runs.  Returns the lines written
and the git fetch invocations performed. -/
def dispatch1 (h : RemoteSubdirHelper) (advertised : List (Str × Str))
    (cmd : Str) (cargs : List Str) :
    Except PyErr (List Str × List (Str × List Str)) :=
  if cmd = chars "capabilities" then
    if cargs.isEmpty then .ok (do_capabilities, []) else .error .typeError
  else if cmd = chars "list" then
    if cargs.isEmpty then
      .ok ((do_list h advertised).output,
        [((do_list h advertised).fetchUrl, (do_list h advertised).fetchArgs)])
    else .error .typeError
  else if cmd = chars "fetch" then
    match cargs with
    | [sha1, name] => (do_fetch sha1 name).map (fun ws => (ws, []))
    | _ => .error .typeError
  else .error .unknownCommand

/-- The protocol dispatcher loop: an empty line or end-of-stream terminates
the session; otherwise the line is rstripped and split on whitespace,
args[0] of an empty token list raises IndexError, and the handler named by
the first token is resolved and invoked; an uncaught error aborts the
session. -/
def process_commands (h : RemoteSubdirHelper) (advertised : List (Str × Str)) :
    List Str → SessionResult
  | [] => ⟨[], [], [], none⟩
  | line :: rest =>
    if line = [] ∨ line = ['\n'] then ⟨[], [], [], none⟩
    else
      match pySplit (pyRstrip line) with
      | [] => ⟨[], [], [], some .indexError⟩
      | cmd :: cargs =>
        match dispatch1 h advertised cmd cargs with
        | .error e => ⟨[], if knownCommand cmd then [cmd] else [], [], some e⟩
        | .ok (ws, fcs) =>
          let r := process_commands h advertised rest
          ⟨ws ++ r.output, cmd :: r.dispatched, fcs ++ r.fetchCalls, r.err⟩

end RemoteSubdirHelper

/-- The configuration of the origin scenario from the spec. -/
def cfgOrigin : Config :=
  ⟨some (chars "https://example/repo.git"), some (chars ":"),
   [chars "+refs/heads/*:refs/remotes/origin/*"]⟩

/-- The helper value constructed from the origin scenario configuration. -/
def helperOrigin : RemoteSubdirHelper :=
  ⟨chars "origin", chars "https://example/repo.git", ⟨[], []⟩,
   [⟨chars "refs/heads/", chars "refs/remotes/origin/", true⟩],
   chars "refs/remote-subdir/origin/", chars "refs/remotes/origin/",
   [⟨chars "refs/heads/", chars "refs/remote-subdir/origin/", true⟩],
   [⟨chars "refs/remote-subdir/origin/", chars "refs/remotes/origin/", true⟩]⟩

/-- The remote advertisement of the origin scenario. -/
def advOrigin : List (Str × Str) := [(chars "abc123", chars "refs/heads/main")]

/-- C1: in the origin scenario (url, empty dirspec, one refspec, remote
advertising abc123 at refs/heads/main) construction succeeds, and the list
command performs a fetch of the derived refspec and writes exactly the line
pairing abc123 with refs/heads/main followed by the blank terminator, both at
the handler and at the dispatcher level. -/
theorem list_scenario :
    RemoteSubdirHelper.init cfgOrigin (chars "origin") = .ok helperOrigin
    ∧ RemoteSubdirHelper.do_list helperOrigin advOrigin =
        ⟨chars "https://example/repo.git",
         [chars "+refs/heads/*:refs/remote-subdir/origin/*"],
         [chars "abc123 refs/heads/main\n", chars "\n"]⟩
    ∧ RemoteSubdirHelper.process_commands helperOrigin advOrigin
        [chars "list\n", chars "\n"] =
        ⟨[chars "abc123 refs/heads/main\n", chars "\n"], [chars "list"],
         [(chars "https://example/repo.git",
           [chars "+refs/heads/*:refs/remote-subdir/origin/*"])], none⟩ := by
  refine ⟨by decide, by decide, by decide⟩

/-- C2 (amended): every ref enumerated under the unmapped namespace gets a
response line pairing its current value with the FIRST FETCHSPEC's
right-to-left mapping of its unmapped name (not the first mapspec's). -/
theorem list_line_uses_fetchspec_rtl (h : RemoteSubdirHelper)
    (advertised : List (Str × Str)) (v r : Str)
    (hmem : (v, r) ∈ gitRefs (gitFetchStore advertised h.fetchspecs)
      h.unmapped_ref_pfx) :
    v ++ [' '] ++ pyFmtOpt ((h.fetchspecs.headD dummySpec).rtl r) ++ ['\n']
      ∈ (RemoteSubdirHelper.do_list h advertised).output := by
  unfold RemoteSubdirHelper.do_list
  simp only
  apply List.mem_append_left
  exact List.mem_map.mpr ⟨(v, r), hmem, rfl⟩

/-- C2 witness: the amended line law at the origin scenario's single ref. -/
theorem list_line_uses_fetchspec_rtl_witness :
    chars "abc123" ++ [' ']
      ++ pyFmtOpt ((helperOrigin.fetchspecs.headD dummySpec).rtl
          (chars "refs/remote-subdir/origin/main")) ++ ['\n']
      ∈ (RemoteSubdirHelper.do_list helperOrigin advOrigin).output :=
  list_line_uses_fetchspec_rtl helperOrigin advOrigin (chars "abc123")
    (chars "refs/remote-subdir/origin/main") (by decide)

/-- C2 counterexample: in the origin scenario the written line is the
fetchspec's mapping (abc123 paired with refs/heads/main), while the first
mapspec's right-to-left mapping of the unmapped name is the None sentinel
(its right side is the mapped namespace, which the unmapped name does not
carry); the written line differs from one built from the mapspec mapping, so
the claim as stated is false. -/
theorem list_line_mapspec_cex :
    (RemoteSubdirHelper.do_list helperOrigin advOrigin).output.head?
      = some (chars "abc123 refs/heads/main\n")
    ∧ (helperOrigin.mapspecs.headD dummySpec).rtl
        (chars "refs/remote-subdir/origin/main") = none
    ∧ chars "abc123 refs/heads/main\n"
      ≠ chars "abc123" ++ [' '] ++ pyFmtOpt none ++ ['\n'] := by
  refine ⟨by decide, by decide, by decide⟩

/-- C3 (amended): the capabilities handler writes exactly one capability line
carrying the mandatory-fetch token (star then fetch) followed by the blank
terminator: total output is star-fetch, newline, newline; nothing else
happens, also at the dispatcher level. -/
theorem capabilities_output :
    RemoteSubdirHelper.do_capabilities = [chars "*fetch\n", chars "\n"]
    ∧ RemoteSubdirHelper.do_capabilities.flatten = chars "*fetch\n\n"
    ∧ RemoteSubdirHelper.process_commands helperOrigin advOrigin
        [chars "capabilities\n", chars "\n"] =
        ⟨[chars "*fetch\n", chars "\n"], [chars "capabilities"], [], none⟩ := by
  refine ⟨rfl, by decide, by decide⟩

/-- C3 counterexample: the total capabilities output starts with a star
(the mandatory-capability marker), so it is not the claimed bare
fetch-newline-newline. -/
theorem capabilities_output_cex :
    RemoteSubdirHelper.do_capabilities.flatten = chars "*fetch\n\n"
    ∧ RemoteSubdirHelper.do_capabilities.flatten ≠ chars "fetch\n\n" := by
  refine ⟨by decide, by decide⟩

/-- C7: evaluating the constructor at an absent dirspec key (url and fetch
present) raises AttributeError — split called on None — instead of the
MissingConfiguration ValueError, because DirSpec.parse runs before the
missing-configuration check; an absent url or an absent fetch list (dirspec
present) do reach MissingConfiguration. -/
theorem init_missing_config_eval :
    RemoteSubdirHelper.init ⟨some (chars "https://example/repo.git"), none,
        [chars "+refs/heads/*:refs/remotes/origin/*"]⟩ (chars "origin")
      = .error .attributeError
    ∧ RemoteSubdirHelper.init ⟨none, some (chars ":"),
        [chars "+refs/heads/*:refs/remotes/origin/*"]⟩ (chars "origin")
      = .error .missingConfiguration
    ∧ RemoteSubdirHelper.init ⟨some (chars "https://example/repo.git"),
        some (chars ":"), []⟩ (chars "origin")
      = .error .missingConfiguration
    ∧ PyErr.attributeError ≠ PyErr.missingConfiguration := by
  refine ⟨by decide, by decide, by decide, by decide⟩

/-- C8: for every argument pair the fetch handler raises the
UnexpectedFetchCall signal and writes nothing, both called directly and
resolved through the dispatcher. -/
theorem fetch_always_fails (h : RemoteSubdirHelper)
    (advertised : List (Str × Str)) (sha1 name : Str) :
    RemoteSubdirHelper.do_fetch sha1 name = .error .unexpectedFetchCall
    ∧ RemoteSubdirHelper.dispatch1 h advertised (chars "fetch") [sha1, name]
      = .error .unexpectedFetchCall := by
  exact ⟨rfl, rfl⟩

/-- C10: a non-empty input line other than a lone newline consisting only of
whitespace neither terminates the session nor dispatches any handler: the
token list is empty and indexing its first element raises IndexError,
aborting the session with no output. -/
theorem whitespace_line_aborts (h : RemoteSubdirHelper)
    (advertised : List (Str × Str)) (line : Str) (rest : List Str)
    (hne : line ≠ []) (hnl : line ≠ ['\n'])
    (hws : ∀ c ∈ line, pySpace c = true) :
    RemoteSubdirHelper.process_commands h advertised (line :: rest)
      = ⟨[], [], [], some .indexError⟩ := by
  have hdrop : line.reverse.dropWhile pySpace = [] :=
    List.dropWhile_eq_nil_iff.mpr (fun c hc => hws c (List.mem_reverse.mp hc))
  have hr : pyRstrip line = [] := by
    unfold pyRstrip
    rw [hdrop]
    rfl
  unfold RemoteSubdirHelper.process_commands
  rw [if_neg (fun hor => hor.elim hne hnl), hr]
  rfl

/-- C10 witness: a line of two spaces and a newline aborts the session with
IndexError, no output and no dispatch. -/
theorem whitespace_line_aborts_witness :
    RemoteSubdirHelper.process_commands helperOrigin advOrigin [chars "  \n"]
      = ⟨[], [], [], some .indexError⟩ :=
  whitespace_line_aborts helperOrigin advOrigin (chars "  \n") []
    (by decide) (by decide) (by decide)
